import Mathlib

/-!
Shallow embedding of `hy3dgen/shapegen/postprocessors.py`: the mesh
post-processing façade (FaceReducer, FloaterRemover, DegenerateFaceRemover),
the representation adapter (`import_mesh` / `export_mesh`), and the two
interchange conversions (`pymeshlab2trimesh` / `trimesh2pymeshlab`).

The external geometry engine (pymeshlab filters, trimesh loading) is a black
box; its invocations are recorded as a trace of named filter calls with their
literal parameters, and the success or failure of each external I/O step is
supplied by an environment `Env`.  The filesystem is a list of existing file
paths, and every run also records a trace of file operations (`FsOp`), which
is what the cleanup claims are stated against.
-/

/-- Abstract coordinate of a vertex (the embedding never computes on it). -/
abbrev Coord := Int

/-- Vertex matrix: a list of 3D points. -/
abbrev VMat := List (Coord × Coord × Coord)

/-- Face matrix: a list of vertex-index triples. -/
abbrev FMat := List (Nat × Nat × Nat)

/-- Modelled from the spec: `Latent2MeshOutput` lives in
`hy3dgen/shapegen/models/vae.py`, which is not part of this source tree.
Per the spec it is the value-mesh: a plain data record of a vertex matrix and
a face matrix, with no attached behavior (in particular no `current_mesh`
method), and a freshly constructed one carries no data yet. -/
structure Latent2MeshOutput where
  mesh_v : Option VMat := none
  mesh_f : Option FMat := none
deriving Repr, DecidableEq

/-- A literal argument given to an engine filter (kept symbolic: an integer,
a decimal literal `num / 10 ^ shift`, or a boolean). -/
inductive FilterArg
| int (z : Int)
| decimal (num : Int) (shift : Nat)
| bool (b : Bool)
deriving Repr, DecidableEq

/-- Named parameters of one engine filter invocation. -/
abbrev FilterParams := List (String × FilterArg)

/-- One engine filter invocation: filter name and parameters. -/
abbrev FilterCall := String × FilterParams

/-- A sub-mesh held by a pymeshlab session: either constructed in memory from
matrices (`pymeshlab.Mesh(vertex_matrix=…, face_matrix=…)`) or loaded from a
file. -/
inductive PMesh
| fromMatrices (v : Option VMat) (f : Option FMat)
| fromFile (path : String)
deriving Repr, DecidableEq

/-- The pymeshlab `MeshSet` session: named sub-meshes plus the trace of engine
filters applied so far (the filters themselves are the engine's black box). -/
structure MeshSet where
  meshes : List (String × PMesh) := []
  trace : List FilterCall := []
deriving Repr, DecidableEq

/-- `ms.apply_filter(name, **args)`: in-place filter application, recorded on
the session's trace. -/
def MeshSet.apply_filter (ms : MeshSet) (name : String) (args : FilterParams) : MeshSet :=
  { ms with trace := ms.trace ++ [(name, args)] }

/-- `ms.add_mesh(mesh, name)`. -/
def MeshSet.add_mesh (ms : MeshSet) (m : PMesh) (name : String) : MeshSet :=
  { ms with meshes := ms.meshes ++ [(name, m)] }

/-- `ms.load_new_mesh(path)`: a new sub-mesh loaded from a file. -/
def MeshSet.load_new_mesh (ms : MeshSet) (path : String) : MeshSet :=
  { ms with meshes := ms.meshes ++ [(path, PMesh.fromFile path)] }

/-- A trimesh object, abstracted to the list of geometry ids it aggregates;
`trimesh.util.concatenate` / `+` is list append. -/
abbrev Tri := List Nat

/-- What `trimesh.load` (or a caller) hands over: a single `Trimesh` or a
`Scene` of several geometries. -/
inductive TLoad
| mesh (t : Tri)
| scene (gs : List Tri)
deriving Repr, DecidableEq

/-- The scene-flattening loop of `pymeshlab2trimesh`: start from an empty
`trimesh.Trimesh()` and concatenate every geometry of the scene. -/
def flattenScene : TLoad → Tri
| TLoad.mesh t => t
| TLoad.scene gs => gs.foldl (fun a b => a ++ b) []

/-- The scene-combining loop of `trimesh2pymeshlab` (`temp_mesh = None`, then
`+` over the geometries): `none` when the scene is empty, in which case the
subsequent `mesh.export` call raises. -/
def combineScene : List Tri → Option Tri
| [] => none
| g :: rest => some (rest.foldl (fun a b => a ++ b) g)

/-- Python exceptions observable at this layer. -/
inductive PyErr
| attrError (attr : String)
| ioError (op : String) (path : String)
| wrappedError (fn : String) (inner : String)
deriving Repr, DecidableEq

/-- `str(e)` for the wrapped re-raise messages. -/
def PyErr.describe : PyErr → String
| PyErr.attrError a => "AttributeError: " ++ a
| PyErr.ioError op p => "OSError: " ++ op ++ " " ++ p
| PyErr.wrappedError fn inner => "Error in " ++ fn ++ ": " ++ inner

/-- The filesystem: the list of existing file paths. -/
abbrev FS := List String

/-- Does a file exist (`os.path.exists`)? -/
def FS.has (fs : FS) (p : String) : Bool := decide (p ∈ fs)

/-- File creation (writing to a path makes it exist). -/
def FS.add (fs : FS) (p : String) : FS := if p ∈ fs then fs else fs ++ [p]

/-- File deletion (`os.remove`, when it succeeds). -/
def FS.del (fs : FS) (p : String) : FS := fs.filter (fun q => decide (q ≠ p))

/-- File operations recorded by a run: creation of an artifact, an attempt to
delete one, and an actual successful deletion. -/
inductive FsOp
| create (p : String)
| removeAttempt (p : String)
| removed (p : String)
deriving Repr, DecidableEq

/-- Outcome of running one effectful function: final filesystem, trace of file
operations, and the returned value or propagated exception. -/
structure RunOut (α : Type) where
  fs : FS
  ops : List FsOp
  result : Except PyErr α

/-- Environment: the caller-provisioned temp directory (the module-level
`folder_paths.temp_directory`), the success/failure of each external I/O step,
what the interchange reload returns, and the path the OS tempfile facility
chooses for `DegenerateFaceRemover`. -/
structure Env where
  tempDir : String := "temp"
  saveOk : Bool := true
  saveCreates : Bool := false
  loadOk : Bool := true
  loadResult : TLoad := TLoad.mesh []
  removeOk : Bool := true
  pathLoadOk : Bool := true
  pathLoadResult : TLoad := TLoad.mesh []
  msLoadOk : Bool := true
  ntfPath : String := "/tmp/tmp00000000.ply"
  degSaveOk : Bool := true
  degLoadOk : Bool := true
  degRemoveOk : Bool := true
deriving Repr, DecidableEq

/-- `os.path.join(temp_dir, 'temp_mesh.ply')`: the fixed per-call-site
artifact path used by both adapter conversions. -/
def tempPath (env : Env) : String := env.tempDir ++ "/temp_mesh.ply"

/-- `path.endswith(suffix)`. -/
def pathEnds (path suffix : String) : Bool := suffix.data.isSuffixOf path.data

/-- The shared `except Exception as e:` handler of the two conversions:
`if os.path.exists(temp_path): os.remove(temp_path)` followed by
`raise Exception(f"Error in {fn}: {str(e)}")`.  The deletion is unguarded, so
when `os.remove` itself raises, that exception propagates instead of the
wrapped primary error. -/
def convHandler (env : Env) (fn : String) (p : String) (e : PyErr) (fs : FS)
    (ops : List FsOp) : FS × List FsOp × PyErr :=
  if FS.has fs p then
    if env.removeOk then
      (FS.del fs p, ops ++ [FsOp.removeAttempt p, FsOp.removed p],
        PyErr.wrappedError fn (PyErr.describe e))
    else
      (fs, ops ++ [FsOp.removeAttempt p], PyErr.ioError "remove" p)
  else
    (fs, ops, PyErr.wrappedError fn (PyErr.describe e))

/-- `pymeshlab2trimesh(mesh)`: save the session to `temp_dir/temp_mesh.ply`,
load it back with trimesh, flatten a scene into one mesh, delete the artifact,
and return the trimesh; on any exception, best-effort delete and re-raise
wrapped. -/
def pymeshlab2trimesh (env : Env) (mesh : MeshSet) (fs : FS) : RunOut Tri :=
  let p := tempPath env
  if env.saveOk then
    let fs1 := FS.add fs p
    let ops1 := [FsOp.create p]
    if env.loadOk then
      let loaded := flattenScene env.loadResult
      if FS.has fs1 p then
        if env.removeOk then
          { fs := FS.del fs1 p, ops := ops1 ++ [FsOp.removeAttempt p, FsOp.removed p],
            result := Except.ok loaded }
        else
          let h := convHandler env "pymeshlab2trimesh" p (PyErr.ioError "remove" p) fs1
            (ops1 ++ [FsOp.removeAttempt p])
          { fs := h.1, ops := h.2.1, result := Except.error h.2.2 }
      else
        { fs := fs1, ops := ops1, result := Except.ok loaded }
    else
      let h := convHandler env "pymeshlab2trimesh" p (PyErr.ioError "load" p) fs1 ops1
      { fs := h.1, ops := h.2.1, result := Except.error h.2.2 }
  else
    let fs1 := if env.saveCreates then FS.add fs p else fs
    let ops1 := if env.saveCreates then [FsOp.create p] else []
    let h := convHandler env "pymeshlab2trimesh" p (PyErr.ioError "save" p) fs1 ops1
    { fs := h.1, ops := h.2.1, result := Except.error h.2.2 }

/-- `trimesh2pymeshlab(mesh)`: combine a scene into one trimesh, export it to
`temp_dir/temp_mesh.ply`, load that file into a fresh session, delete the
artifact, and return the session; on any exception, best-effort delete and
re-raise wrapped. -/
def trimesh2pymeshlab (env : Env) (tm : TLoad) (fs : FS) : RunOut MeshSet :=
  let p := tempPath env
  let combined : Option Tri :=
    match tm with
    | TLoad.mesh t => some t
    | TLoad.scene gs => combineScene gs
  match combined with
  | none =>
    let h := convHandler env "trimesh2pymeshlab" p (PyErr.attrError "export") fs []
    { fs := h.1, ops := h.2.1, result := Except.error h.2.2 }
  | some _ =>
    if env.saveOk then
      let fs1 := FS.add fs p
      let ops1 := [FsOp.create p]
      if env.loadOk then
        let msOut := MeshSet.load_new_mesh {} p
        if FS.has fs1 p then
          if env.removeOk then
            { fs := FS.del fs1 p, ops := ops1 ++ [FsOp.removeAttempt p, FsOp.removed p],
              result := Except.ok msOut }
          else
            let h := convHandler env "trimesh2pymeshlab" p (PyErr.ioError "remove" p) fs1
              (ops1 ++ [FsOp.removeAttempt p])
            { fs := h.1, ops := h.2.1, result := Except.error h.2.2 }
        else
          { fs := fs1, ops := ops1, result := Except.ok msOut }
      else
        let h := convHandler env "trimesh2pymeshlab" p (PyErr.ioError "load" p) fs1 ops1
        { fs := h.1, ops := h.2.1, result := Except.error h.2.2 }
    else
      let fs1 := if env.saveCreates then FS.add fs p else fs
      let ops1 := if env.saveCreates then [FsOp.create p] else []
      let h := convHandler env "trimesh2pymeshlab" p (PyErr.ioError "save" p) fs1 ops1
      { fs := h.1, ops := h.2.1, result := Except.error h.2.2 }

/-- Result of `load_mesh(path)`: a trimesh (for `.glb`) or a session. -/
inductive LoadedMesh
| tri (t : TLoad)
| session (ms : MeshSet)
deriving Repr, DecidableEq

/-- `load_mesh(path)`: `.glb` paths go through `trimesh.load`, anything else
through `MeshSet.load_new_mesh`. -/
def load_mesh (env : Env) (path : String) : Except PyErr LoadedMesh :=
  if pathEnds path ".glb" then
    if env.pathLoadOk then Except.ok (LoadedMesh.tri env.pathLoadResult)
    else Except.error (PyErr.ioError "load" path)
  else
    if env.msLoadOk then Except.ok (LoadedMesh.session (MeshSet.load_new_mesh {} path))
    else Except.error (PyErr.ioError "load" path)

/-- The runtime shapes a mesh argument can take at this layer: a path string,
a value-mesh, a pymeshlab session, or a trimesh object. -/
inductive MeshValue
| path (s : String)
| value (m : Latent2MeshOutput)
| session (ms : MeshSet)
| tri (t : TLoad)
deriving Repr, DecidableEq

/-- `import_mesh(mesh)`: a path is loaded; a trimesh goes through
`trimesh2pymeshlab`; a session passes through unchanged.  The value-mesh
branch first rebinds `mesh` to a fresh `pymeshlab.MeshSet()` and only then
reads `mesh.mesh_v` — a session has no `mesh_v` attribute, so the branch
raises an AttributeError before any engine mesh is constructed (the
`pymeshlab.Mesh(...)` / `add_mesh(..., "converted_mesh")` lines are never
reached). -/
def import_mesh (env : Env) (mesh : MeshValue) (fs : FS) : RunOut MeshSet :=
  match mesh with
  | MeshValue.path s =>
    match load_mesh env s with
    | Except.error e => { fs := fs, ops := [], result := Except.error e }
    | Except.ok (LoadedMesh.session ms) => { fs := fs, ops := [], result := Except.ok ms }
    | Except.ok (LoadedMesh.tri t) => trimesh2pymeshlab env t fs
  | MeshValue.value _ =>
    { fs := fs, ops := [], result := Except.error (PyErr.attrError "mesh_v") }
  | MeshValue.session ms => { fs := fs, ops := [], result := Except.ok ms }
  | MeshValue.tri t => trimesh2pymeshlab env t fs

/-- `export_mesh(input, output)`: a session input returns the processed
session; a value-mesh input constructs a fresh empty `Latent2MeshOutput` and
then calls `current_mesh()` on it, which a value-mesh does not have, so the
branch raises an AttributeError; any other input converts the processed
session to a trimesh. -/
def export_mesh (env : Env) (input : MeshValue) (output : MeshSet) (fs : FS) :
    RunOut MeshValue :=
  match input with
  | MeshValue.session _ =>
    { fs := fs, ops := [], result := Except.ok (MeshValue.session output) }
  | MeshValue.value _ =>
    { fs := fs, ops := [], result := Except.error (PyErr.attrError "current_mesh") }
  | _ =>
    let r := pymeshlab2trimesh env output fs
    { fs := r.fs, ops := r.ops,
      result := r.result.map (fun t => MeshValue.tri (TLoad.mesh t)) }

/-- `reduce_face(mesh, max_facenum=200000)`: quadric-edge-collapse decimation
with the fixed policy knobs, target forwarded verbatim. -/
def reduce_face (mesh : MeshSet) (max_facenum : Int := 200000) : MeshSet :=
  MeshSet.apply_filter mesh "meshing_decimation_quadric_edge_collapse"
    [("targetfacenum", FilterArg.int max_facenum),
     ("qualitythr", FilterArg.decimal 1 0),
     ("preserveboundary", FilterArg.bool true),
     ("boundaryweight", FilterArg.int 3),
     ("preservenormal", FilterArg.bool true),
     ("preservetopology", FilterArg.bool true),
     ("autoclean", FilterArg.bool true)]

/-- `remove_floater(mesh)`: the three selection/deletion filters in order. -/
def remove_floater (mesh : MeshSet) : MeshSet :=
  MeshSet.apply_filter
    (MeshSet.apply_filter
      (MeshSet.apply_filter mesh
        "compute_selection_by_small_disconnected_components_per_face"
        [("nbfaceratio", FilterArg.decimal 5 3)])
      "compute_selection_transfer_face_to_vertex"
      [("inclusive", FilterArg.bool false)])
    "meshing_remove_selected_vertices_and_faces" []

/-- `FaceReducer.__call__(mesh, max_facenum=40000)`. -/
def FaceReducer (env : Env) (mesh : MeshValue) (fs : FS) (max_facenum : Int := 40000) :
    RunOut MeshValue :=
  let r1 := import_mesh env mesh fs
  match r1.result with
  | Except.error e => { fs := r1.fs, ops := r1.ops, result := Except.error e }
  | Except.ok ms =>
    let ms2 := reduce_face ms max_facenum
    let r2 := export_mesh env mesh ms2 r1.fs
    { fs := r2.fs, ops := r1.ops ++ r2.ops, result := r2.result }

/-- `FloaterRemover.__call__(mesh)`. -/
def FloaterRemover (env : Env) (mesh : MeshValue) (fs : FS) : RunOut MeshValue :=
  let r1 := import_mesh env mesh fs
  match r1.result with
  | Except.error e => { fs := r1.fs, ops := r1.ops, result := Except.error e }
  | Except.ok ms =>
    let ms2 := remove_floater ms
    let r2 := export_mesh env mesh ms2 r1.fs
    { fs := r2.fs, ops := r1.ops ++ r2.ops, result := r2.result }

/-- `DegenerateFaceRemover.__call__(mesh)`: ingest, create a tempfile at an
OS-chosen path (`tempfile.NamedTemporaryFile(suffix='.ply', delete=False)`),
save the session there and reload it into a fresh session inside `try`, with a
`finally` block that checks existence and deletes the file inside its own
`try/except: pass`, then export. -/
def DegenerateFaceRemover (env : Env) (mesh : MeshValue) (fs : FS) : RunOut MeshValue :=
  let r1 := import_mesh env mesh fs
  match r1.result with
  | Except.error e => { fs := r1.fs, ops := r1.ops, result := Except.error e }
  | Except.ok _ =>
    let p := env.ntfPath
    let fs1 := FS.add r1.fs p
    let ops1 := r1.ops ++ [FsOp.create p]
    let body : Except PyErr MeshSet :=
      if env.degSaveOk then
        if env.degLoadOk then Except.ok (MeshSet.load_new_mesh {} p)
        else Except.error (PyErr.ioError "load" p)
      else Except.error (PyErr.ioError "save" p)
    let cleaned : FS × List FsOp :=
      if FS.has fs1 p then
        if env.degRemoveOk then (FS.del fs1 p, ops1 ++ [FsOp.removeAttempt p, FsOp.removed p])
        else (fs1, ops1 ++ [FsOp.removeAttempt p])
      else (fs1, ops1)
    match body with
    | Except.error e => { fs := cleaned.1, ops := cleaned.2, result := Except.error e }
    | Except.ok ms2 =>
      let r3 := export_mesh env mesh ms2 cleaned.1
      { fs := r3.fs, ops := cleaned.2 ++ r3.ops, result := r3.result }

/-- Existence after creating a file at a path. -/
theorem FS.has_add_self (fs : FS) (p : String) : FS.has (FS.add fs p) p = true := by
  by_cases h : p ∈ fs <;> simp [FS.add, FS.has, h]

/-- Non-existence after deleting a file at a path. -/
theorem FS.has_del_self (fs : FS) (p : String) : FS.has (FS.del fs p) p = false := by
  simp [FS.del, FS.has, List.mem_filter]

/-- Is `p` a path lying inside directory `dir`? -/
def pathInDir (dir p : String) : Bool := List.isPrefixOf (dir.data ++ ['/']) p.data

/-- C1 counterexample: on a concrete value-mesh input, the façade call raises
an AttributeError already at the ingest step (reading `mesh_v` off the
rebound session) instead of returning a value-mesh that passes the original
matrices through — the export step is never even reached. -/
theorem c1_counterexample :
    (FloaterRemover {} (MeshValue.value
        { mesh_v := some [(0, 0, 0), (1, 0, 0), (0, 1, 0)],
          mesh_f := some [(0, 1, 2)] }) []).result =
      Except.error (PyErr.attrError "mesh_v") := rfl

/-- C1 (amended): every façade call with a value-mesh input raises an
AttributeError from the ingest step — `import_mesh` rebinds `mesh` to a fresh
session before reading `mesh.mesh_v` — so no pass-through value-mesh is ever
returned; and the export step's value branch carries the same shadowing slip
(calling `current_mesh()` on a fresh value-mesh), so it too would raise rather
than pass the original matrices through if it were reached. -/
theorem c1_value_export_raises (env : Env) (m : Latent2MeshOutput) (ms : MeshSet) (fs : FS) :
    export_mesh env (MeshValue.value m) ms fs =
      { fs := fs, ops := [], result := Except.error (PyErr.attrError "current_mesh") } ∧
    (FloaterRemover env (MeshValue.value m) fs).result =
      Except.error (PyErr.attrError "mesh_v") ∧
    (FaceReducer env (MeshValue.value m) fs).result =
      Except.error (PyErr.attrError "mesh_v") :=
  ⟨rfl, rfl, rfl⟩

/-- C2 counterexample: on a concrete value-mesh input, the ingest performs no
file operation at all (no artifact serialized, loaded, or deleted) and does
not even return a session: it raises an AttributeError reading `mesh_v` off
the fresh session that line 158 rebound `mesh` to — contrary to the claimed
serialize/load/delete round-trip ending in a loaded session. -/
theorem c2_counterexample :
    (import_mesh {} (MeshValue.value
        { mesh_v := some [(0, 0, 0), (1, 0, 0), (0, 1, 0)],
          mesh_f := some [(0, 1, 2)] }) []).ops = [] ∧
    (import_mesh {} (MeshValue.value
        { mesh_v := some [(0, 0, 0), (1, 0, 0), (0, 1, 0)],
          mesh_f := some [(0, 1, 2)] }) []).fs = [] ∧
    (import_mesh {} (MeshValue.value
        { mesh_v := some [(0, 0, 0), (1, 0, 0), (0, 1, 0)],
          mesh_f := some [(0, 1, 2)] }) []).result =
      Except.error (PyErr.attrError "mesh_v") :=
  ⟨rfl, rfl, rfl⟩

/-- C2 (amended): for every value-mesh input, the ingest conversion raises an
AttributeError before any engine mesh exists — it rebinds `mesh` to a fresh
session and then reads `mesh.mesh_v`, which a session does not have — so no
temporary artifact is serialized, loaded, or deleted, no directory is created,
and the filesystem is returned unchanged. -/
theorem c2_value_ingest_raises (env : Env) (m : Latent2MeshOutput) (fs : FS) :
    import_mesh env (MeshValue.value m) fs =
      { fs := fs, ops := [], result := Except.error (PyErr.attrError "mesh_v") } :=
  rfl

/-- C8: floater removal applies exactly the three engine filters, in order —
small-component face selection at ratio 0.005, face-to-vertex selection
transfer with `inclusive=False`, and deletion of selected vertices and faces —
and returns the same session (same sub-meshes, trace extended in place). -/
theorem c8_remove_floater_steps (ms : MeshSet) :
    (remove_floater ms).meshes = ms.meshes ∧
    (remove_floater ms).trace = ms.trace ++
      [("compute_selection_by_small_disconnected_components_per_face",
          [("nbfaceratio", FilterArg.decimal 5 3)]),
       ("compute_selection_transfer_face_to_vertex",
          [("inclusive", FilterArg.bool false)]),
       ("meshing_remove_selected_vertices_and_faces", [])] := by
  constructor
  · rfl
  · simp [remove_floater, MeshSet.apply_filter]

/-- C9: the public FaceReducer façade defaults `max_facenum` to 40000 and
forwards it to the decimation filter, while the lower-level `reduce_face`
helper defaults to 200000. -/
theorem c9_default_targets (env : Env) (ms : MeshSet) (fs : FS) :
    (FaceReducer env (MeshValue.session ms) fs).result =
      Except.ok (MeshValue.session (reduce_face ms 40000)) ∧
    (reduce_face ms).trace = ms.trace ++
      [("meshing_decimation_quadric_edge_collapse",
        [("targetfacenum", FilterArg.int 200000),
         ("qualitythr", FilterArg.decimal 1 0),
         ("preserveboundary", FilterArg.bool true),
         ("boundaryweight", FilterArg.int 3),
         ("preservenormal", FilterArg.bool true),
         ("preservetopology", FilterArg.bool true),
         ("autoclean", FilterArg.bool true)])] :=
  ⟨rfl, rfl⟩

/-- C10: neither the FaceReducer façade nor the `reduce_face` helper validates
`max_facenum`: every integer, zero and negatives included, is forwarded
verbatim as `targetfacenum` to the engine filter, and the call with a session
input returns normally without any façade-level error. -/
theorem c10_no_validation (z : Int) (env : Env) (ms : MeshSet) (fs : FS) :
    (FaceReducer env (MeshValue.session ms) fs z).result =
      Except.ok (MeshValue.session (reduce_face ms z)) ∧
    (reduce_face ms z).trace = ms.trace ++
      [("meshing_decimation_quadric_edge_collapse",
        [("targetfacenum", FilterArg.int z),
         ("qualitythr", FilterArg.decimal 1 0),
         ("preserveboundary", FilterArg.bool true),
         ("boundaryweight", FilterArg.int 3),
         ("preservenormal", FilterArg.bool true),
         ("preservetopology", FilterArg.bool true),
         ("autoclean", FilterArg.bool true)])] :=
  ⟨rfl, rfl⟩

/-- Cleanup discipline of `pymeshlab2trimesh`, over every environment: a
deletion attempt accompanies every artifact creation, and when deletion
succeeds the artifact is gone from the final filesystem. -/
theorem pml2tm_cleanup (env : Env) (ms : MeshSet) (fs : FS) :
    (FsOp.create (tempPath env) ∈ (pymeshlab2trimesh env ms fs).ops →
      FsOp.removeAttempt (tempPath env) ∈ (pymeshlab2trimesh env ms fs).ops) ∧
    (env.removeOk = true →
      FS.has (pymeshlab2trimesh env ms fs).fs (tempPath env) = false) := by
  cases hs : env.saveOk <;> cases hl : env.loadOk <;> cases hr : env.removeOk <;>
    cases hc : env.saveCreates <;> cases hf : FS.has fs (tempPath env) <;>
      simp [pymeshlab2trimesh, convHandler, hs, hl, hr, hc, hf,
            FS.has_add_self, FS.has_del_self]

/-- Cleanup discipline of `trimesh2pymeshlab`, over every environment. -/
theorem tm2pml_cleanup (env : Env) (t : TLoad) (fs : FS) :
    (FsOp.create (tempPath env) ∈ (trimesh2pymeshlab env t fs).ops →
      FsOp.removeAttempt (tempPath env) ∈ (trimesh2pymeshlab env t fs).ops) ∧
    (env.removeOk = true →
      FS.has (trimesh2pymeshlab env t fs).fs (tempPath env) = false) := by
  rcases t with t0 | (_ | ⟨g, rest⟩) <;>
    cases hs : env.saveOk <;> cases hl : env.loadOk <;> cases hr : env.removeOk <;>
      cases hc : env.saveCreates <;> cases hf : FS.has fs (tempPath env) <;>
        simp [trimesh2pymeshlab, convHandler, combineScene, hs, hl, hr, hc, hf,
              FS.has_add_self, FS.has_del_self]

/-- C3: in both conversion directions, on every exit path (normal return or
raised error, under every environment), deletion of the interchange artifact
is attempted before the function returns, and whenever the deletion primitive
succeeds no artifact created by the conversion remains afterwards. -/
theorem c3_conversion_cleanup (env : Env) (ms : MeshSet) (t : TLoad) (fs : FS) :
    (FsOp.create (tempPath env) ∈ (pymeshlab2trimesh env ms fs).ops →
      FsOp.removeAttempt (tempPath env) ∈ (pymeshlab2trimesh env ms fs).ops) ∧
    (env.removeOk = true →
      FS.has (pymeshlab2trimesh env ms fs).fs (tempPath env) = false) ∧
    (FsOp.create (tempPath env) ∈ (trimesh2pymeshlab env t fs).ops →
      FsOp.removeAttempt (tempPath env) ∈ (trimesh2pymeshlab env t fs).ops) ∧
    (env.removeOk = true →
      FS.has (trimesh2pymeshlab env t fs).fs (tempPath env) = false) :=
  ⟨(pml2tm_cleanup env ms fs).1, (pml2tm_cleanup env ms fs).2,
   (tm2pml_cleanup env t fs).1, (tm2pml_cleanup env t fs).2⟩

/-- C3 witness: the cleanup discipline evaluated on a concrete run. -/
theorem c3_conversion_cleanup_witness :
    FsOp.removeAttempt "temp/temp_mesh.ply" ∈ (pymeshlab2trimesh {} {} []).ops ∧
    FS.has (pymeshlab2trimesh {} {} []).fs "temp/temp_mesh.ply" = false ∧
    FsOp.removeAttempt "temp/temp_mesh.ply" ∈
      (trimesh2pymeshlab {} (TLoad.mesh []) []).ops ∧
    FS.has (trimesh2pymeshlab {} (TLoad.mesh []) []).fs "temp/temp_mesh.ply" = false :=
  ⟨(c3_conversion_cleanup {} {} (TLoad.mesh []) []).1 (by decide),
   (c3_conversion_cleanup {} {} (TLoad.mesh []) []).2.1 rfl,
   (c3_conversion_cleanup {} {} (TLoad.mesh []) []).2.2.1 (by decide),
   (c3_conversion_cleanup {} {} (TLoad.mesh []) []).2.2.2 rfl⟩

/-- C4 counterexample: with the interchange reload failing and `os.remove`
failing, `pymeshlab2trimesh` propagates the deletion failure instead of the
wrapped primary load error — the deletion failure replaces the primary error,
and the artifact is left behind. -/
theorem c4_counterexample :
    (pymeshlab2trimesh { loadOk := false, removeOk := false } {} []).result =
      Except.error (PyErr.ioError "remove" "temp/temp_mesh.ply") ∧
    FS.has (pymeshlab2trimesh { loadOk := false, removeOk := false } {} []).fs
      "temp/temp_mesh.ply" = true :=
  ⟨rfl, rfl⟩

/-- C4 (amended): only `DegenerateFaceRemover`'s finally block swallows a
deletion failure (the primary reload error still propagates there); in the two
adapter conversions the error-path deletion is unguarded, so when it fails the
deletion error propagates in place of the wrapped primary error. -/
theorem c4_deletion_failure_propagation (env : Env) (ms : MeshSet) (t : Tri) (fs : FS)
    (hs : env.saveOk = true) (hl : env.loadOk = false) (hr : env.removeOk = false)
    (hds : env.degSaveOk = true) (hdl : env.degLoadOk = false)
    (hdr : env.degRemoveOk = false) :
    (pymeshlab2trimesh env ms fs).result =
      Except.error (PyErr.ioError "remove" (tempPath env)) ∧
    (trimesh2pymeshlab env (TLoad.mesh t) fs).result =
      Except.error (PyErr.ioError "remove" (tempPath env)) ∧
    (DegenerateFaceRemover env (MeshValue.session ms) fs).result =
      Except.error (PyErr.ioError "load" env.ntfPath) := by
  refine ⟨?_, ?_, ?_⟩ <;>
    simp [pymeshlab2trimesh, trimesh2pymeshlab, DegenerateFaceRemover, import_mesh,
          convHandler, hs, hl, hr, hds, hdl, hdr, FS.has_add_self]

/-- C4 witness: the amended propagation behavior evaluated on a concrete
environment in which reload and deletion both fail. -/
theorem c4_deletion_failure_propagation_witness :
    (pymeshlab2trimesh
        { loadOk := false, removeOk := false, degLoadOk := false, degRemoveOk := false }
        {} []).result =
      Except.error (PyErr.ioError "remove" "temp/temp_mesh.ply") ∧
    (trimesh2pymeshlab
        { loadOk := false, removeOk := false, degLoadOk := false, degRemoveOk := false }
        (TLoad.mesh []) []).result =
      Except.error (PyErr.ioError "remove" "temp/temp_mesh.ply") ∧
    (DegenerateFaceRemover
        { loadOk := false, removeOk := false, degLoadOk := false, degRemoveOk := false }
        (MeshValue.session {}) []).result =
      Except.error (PyErr.ioError "load" "/tmp/tmp00000000.ply") :=
  c4_deletion_failure_propagation
    { loadOk := false, removeOk := false, degLoadOk := false, degRemoveOk := false }
    {} [] [] rfl rfl rfl rfl rfl rfl

/-- C5 counterexample: on a concrete value-mesh input the FaceReducer façade
raises an AttributeError from the ingest step instead of yielding a
value-mesh, so the output shape does not match the input's shape class. -/
theorem c5_counterexample :
    (FaceReducer {} (MeshValue.value
        { mesh_v := some [(0, 0, 0), (1, 0, 0), (0, 1, 0)],
          mesh_f := some [(0, 1, 2)] }) []).result =
      Except.error (PyErr.attrError "mesh_v") := rfl

/-- C5 (amended): a session input yields a session output and a path input
yields a (flattened) trimesh value output when the chain succeeds, but a
value-mesh input raises an AttributeError from the ingest step (reading
`mesh_v` off the rebound session) instead of yielding a value-mesh. -/
theorem c5_shape_classes (env : Env) (ms : MeshSet) (m : Latent2MeshOutput)
    (s : String) (fs : FS)
    (hglb : pathEnds s ".glb" = false) (hms : env.msLoadOk = true)
    (hs : env.saveOk = true) (hl : env.loadOk = true) (hr : env.removeOk = true) :
    (FloaterRemover env (MeshValue.session ms) fs).result =
      Except.ok (MeshValue.session (remove_floater ms)) ∧
    (FloaterRemover env (MeshValue.path s) fs).result =
      Except.ok (MeshValue.tri (TLoad.mesh (flattenScene env.loadResult))) ∧
    (FloaterRemover env (MeshValue.value m) fs).result =
      Except.error (PyErr.attrError "mesh_v") := by
  refine ⟨rfl, ?_, rfl⟩
  simp [FloaterRemover, import_mesh, load_mesh, export_mesh, pymeshlab2trimesh,
        hglb, hms, hs, hl, hr, FS.has_add_self, Except.map]

/-- C5 witness: the amended shape preservation evaluated on concrete inputs. -/
theorem c5_shape_classes_witness :
    (FloaterRemover {} (MeshValue.session {}) []).result =
      Except.ok (MeshValue.session (remove_floater {})) ∧
    (FloaterRemover {} (MeshValue.path "a.ply") []).result =
      Except.ok (MeshValue.tri (TLoad.mesh [])) ∧
    (FloaterRemover {} (MeshValue.value {}) []).result =
      Except.error (PyErr.attrError "mesh_v") :=
  c5_shape_classes {} {} {} "a.ply" [] (by decide) rfl rfl rfl rfl

/-- Every artifact `pymeshlab2trimesh` creates sits at the fixed per-call-site
path `temp_dir/temp_mesh.ply`. -/
theorem pml2tm_create_only (env : Env) (ms : MeshSet) (fs : FS) (q : String)
    (h : FsOp.create q ∈ (pymeshlab2trimesh env ms fs).ops) : q = tempPath env := by
  cases hs : env.saveOk <;> cases hl : env.loadOk <;> cases hr : env.removeOk <;>
    cases hc : env.saveCreates <;> cases hf : FS.has fs (tempPath env) <;>
      simp [pymeshlab2trimesh, convHandler, hs, hl, hr, hc, hf,
            FS.has_add_self] at h <;> exact h

/-- Every artifact `trimesh2pymeshlab` creates sits at the fixed per-call-site
path `temp_dir/temp_mesh.ply`. -/
theorem tm2pml_create_only (env : Env) (t : TLoad) (fs : FS) (q : String)
    (h : FsOp.create q ∈ (trimesh2pymeshlab env t fs).ops) : q = tempPath env := by
  rcases t with t0 | (_ | ⟨g, rest⟩) <;>
    cases hs : env.saveOk <;> cases hl : env.loadOk <;> cases hr : env.removeOk <;>
      cases hc : env.saveCreates <;> cases hf : FS.has fs (tempPath env) <;>
        simp [trimesh2pymeshlab, convHandler, combineScene, hs, hl, hr, hc, hf,
              FS.has_add_self] at h <;> exact h

/-- The `DegenerateFaceRemover` reload artifact is created at the OS-chosen
tempfile path and a deletion attempt is recorded on every outcome. -/
theorem deg_artifact_ops (env : Env) (ms : MeshSet) (fs : FS) :
    FsOp.create env.ntfPath ∈
      (DegenerateFaceRemover env (MeshValue.session ms) fs).ops ∧
    FsOp.removeAttempt env.ntfPath ∈
      (DegenerateFaceRemover env (MeshValue.session ms) fs).ops := by
  cases hds : env.degSaveOk <;> cases hdl : env.degLoadOk <;> cases hdr : env.degRemoveOk <;>
    simp [DegenerateFaceRemover, import_mesh, export_mesh, hds, hdl, hdr,
          FS.has_add_self]

/-- When the deletion primitive succeeds, the `DegenerateFaceRemover` reload
artifact is gone from the final filesystem on every outcome. -/
theorem deg_artifact_clean (env : Env) (ms : MeshSet) (fs : FS)
    (h : env.degRemoveOk = true) :
    FS.has (DegenerateFaceRemover env (MeshValue.session ms) fs).fs env.ntfPath = false := by
  cases hds : env.degSaveOk <;> cases hdl : env.degLoadOk <;>
    simp [DegenerateFaceRemover, import_mesh, export_mesh, hds, hdl, h,
          FS.has_add_self, FS.has_del_self]

/-- When the reload raises, the primary reload error propagates from
`DegenerateFaceRemover` whether or not the finally-block deletion succeeds. -/
theorem deg_reload_error (env : Env) (ms : MeshSet) (fs : FS)
    (hds : env.degSaveOk = true) (hdl : env.degLoadOk = false) :
    (DegenerateFaceRemover env (MeshValue.session ms) fs).result =
      Except.error (PyErr.ioError "load" env.ntfPath) := by
  cases hdr : env.degRemoveOk <;>
    simp [DegenerateFaceRemover, import_mesh, hds, hdl, hdr, FS.has_add_self]

/-- C6 counterexample: two `DegenerateFaceRemover` calls from the same call
site create their artifact at whatever path the OS tempfile facility chooses —
two different paths across invocations, neither inside the caller-provisioned
temp directory (`temp`), contradicting the claimed deterministic naming inside
the one caller-provisioned directory. -/
theorem c6_counterexample :
    FsOp.create "/tmp/tmpa.ply" ∈
      (DegenerateFaceRemover { ntfPath := "/tmp/tmpa.ply" }
        (MeshValue.session {}) []).ops ∧
    FsOp.create "/tmp/tmpb.ply" ∈
      (DegenerateFaceRemover { ntfPath := "/tmp/tmpb.ply" }
        (MeshValue.session {}) []).ops ∧
    pathInDir "temp" "/tmp/tmpa.ply" = false ∧
    pathInDir "temp" "/tmp/tmpb.ply" = false ∧
    ("/tmp/tmpa.ply" : String) ≠ "/tmp/tmpb.ply" :=
  ⟨by decide, by decide, by decide, by decide, by decide⟩

/-- C6 (amended): the two adapter conversions place every artifact they create
at the fixed path `temp_dir/temp_mesh.ply` inside the caller-provisioned temp
directory, but `DegenerateFaceRemover` creates its reload artifact at the
OS-chosen tempfile path — not tied to the caller-provisioned directory and not
deterministic per call-site — and attempts its removal before returning. -/
theorem c6_artifact_paths (env : Env) (ms : MeshSet) (t : TLoad) (fs : FS) :
    (∀ q, FsOp.create q ∈ (pymeshlab2trimesh env ms fs).ops → q = tempPath env) ∧
    (∀ q, FsOp.create q ∈ (trimesh2pymeshlab env t fs).ops → q = tempPath env) ∧
    FsOp.create env.ntfPath ∈
      (DegenerateFaceRemover env (MeshValue.session ms) fs).ops ∧
    FsOp.removeAttempt env.ntfPath ∈
      (DegenerateFaceRemover env (MeshValue.session ms) fs).ops :=
  ⟨fun q h => pml2tm_create_only env ms fs q h,
   fun q h => tm2pml_create_only env t fs q h,
   (deg_artifact_ops env ms fs).1, (deg_artifact_ops env ms fs).2⟩

/-- C6 witness: the amended artifact-location statement evaluated on a
concrete run. -/
theorem c6_artifact_paths_witness :
    ("temp/temp_mesh.ply" : String) = tempPath {} ∧
    FsOp.removeAttempt "/tmp/tmp00000000.ply" ∈
      (DegenerateFaceRemover {} (MeshValue.session {}) []).ops :=
  ⟨(c6_artifact_paths {} {} (TLoad.mesh []) []).1 "temp/temp_mesh.ply" (by decide),
   (c6_artifact_paths {} {} (TLoad.mesh []) []).2.2.2⟩

/-- C7: every `DegenerateFaceRemover` call creates the reload artifact,
attempts its deletion in the finally block on every outcome (artifact gone
whenever the deletion primitive succeeds), and when the reload itself raises
the deletion is still attempted and the primary reload error propagates. -/
theorem c7_degenerate_finally (env : Env) (ms : MeshSet) (fs : FS) :
    FsOp.create env.ntfPath ∈
      (DegenerateFaceRemover env (MeshValue.session ms) fs).ops ∧
    FsOp.removeAttempt env.ntfPath ∈
      (DegenerateFaceRemover env (MeshValue.session ms) fs).ops ∧
    (env.degRemoveOk = true →
      FS.has (DegenerateFaceRemover env (MeshValue.session ms) fs).fs env.ntfPath
        = false) ∧
    (env.degSaveOk = true → env.degLoadOk = false →
      (DegenerateFaceRemover env (MeshValue.session ms) fs).result =
        Except.error (PyErr.ioError "load" env.ntfPath)) :=
  ⟨(deg_artifact_ops env ms fs).1, (deg_artifact_ops env ms fs).2,
   fun h => deg_artifact_clean env ms fs h,
   fun h1 h2 => deg_reload_error env ms fs h1 h2⟩

/-- C7 witness: the finally-scoped cleanup evaluated on a concrete run whose
reload fails. -/
theorem c7_degenerate_finally_witness :
    FsOp.create "/tmp/tmp00000000.ply" ∈
      (DegenerateFaceRemover { degLoadOk := false } (MeshValue.session {}) []).ops ∧
    FsOp.removeAttempt "/tmp/tmp00000000.ply" ∈
      (DegenerateFaceRemover { degLoadOk := false } (MeshValue.session {}) []).ops ∧
    FS.has (DegenerateFaceRemover { degLoadOk := false } (MeshValue.session {}) []).fs
      "/tmp/tmp00000000.ply" = false ∧
    (DegenerateFaceRemover { degLoadOk := false } (MeshValue.session {}) []).result =
      Except.error (PyErr.ioError "load" "/tmp/tmp00000000.ply") :=
  ⟨(c7_degenerate_finally { degLoadOk := false } {} []).1,
   (c7_degenerate_finally { degLoadOk := false } {} []).2.1,
   (c7_degenerate_finally { degLoadOk := false } {} []).2.2.1 rfl,
   (c7_degenerate_finally { degLoadOk := false } {} []).2.2.2 rfl rfl⟩
